import Mathlib

/-!
Verification development for the voice-chat relay backend.

The definitions below are a shallow embedding of the relay's source:
`src/openaiHandler.ts` (the per-connection bridging handler), `src/config.ts` /
`config.js` (the static OpenAI configuration) and `server.js` / `src/server.ts`
(the WebSocket connection gate).  Byte strings are modelled as `List Nat`
(each element a byte value `< 256`), JavaScript strings as `String`,
JavaScript `undefined`/`null` as `Option`.
-/

/-! ## Base64, modelling Node's `Buffer#toString('base64')` and
`Buffer.from(s, 'base64')` on canonical padded base64 (RFC 4648). -/

/-- The standard base64 alphabet used by Node's `Buffer`. -/
def b64Alphabet : List Char :=
  "ABCDEFGHIJKLMNOPQRSTUVWXYZabcdefghijklmnopqrstuvwxyz0123456789+/".data

/-- The character for a sextet value (`0 ≤ n < 64`). -/
def b64enc (n : Nat) : Char := b64Alphabet.getD n 'A'

/-- The sextet value of an alphabet character (inverse of `b64enc`). -/
def b64dec (c : Char) : Nat := b64Alphabet.findIdx (fun x => x == c)

/-- Base64 encoding of a byte list, as produced by
`Buffer#toString('base64')`: 3 bytes become 4 characters, a 2-byte tail
becomes 3 characters plus `=`, a 1-byte tail 2 characters plus `==`. -/
def base64Encode : List Nat → List Char
  | [] => []
  | [a] => [b64enc (a / 4), b64enc (a % 4 * 16), '=', '=']
  | [a, b] => [b64enc (a / 4), b64enc (a % 4 * 16 + b / 16), b64enc (b % 16 * 4), '=']
  | a :: b :: c :: rest =>
      b64enc (a / 4) :: b64enc (a % 4 * 16 + b / 16) :: b64enc (b % 16 * 4 + c / 64)
        :: b64enc (c % 64) :: base64Encode rest

/-- Decode one 4-character base64 group, honouring `=` padding. -/
def decodeB64Group (c1 c2 c3 c4 : Char) : List Nat :=
  if c3 = '=' then [b64dec c1 * 4 + b64dec c2 / 16]
  else if c4 = '=' then
    [b64dec c1 * 4 + b64dec c2 / 16, b64dec c2 % 16 * 16 + b64dec c3 / 4]
  else
    [b64dec c1 * 4 + b64dec c2 / 16, b64dec c2 % 16 * 16 + b64dec c3 / 4,
     b64dec c3 % 4 * 64 + b64dec c4]

/-- Base64 decoding of a character list, as performed by
`Buffer.from(s, 'base64')` on canonical padded input (which is the only
input the relay ever feeds back through it in the round-trip claim). -/
def base64Decode : List Char → List Nat
  | c1 :: c2 :: c3 :: c4 :: rest => decodeB64Group c1 c2 c3 c4 ++ base64Decode rest
  | _ => []

/-- String-level wrapper of `base64Encode` (`Buffer#toString('base64')`). -/
def base64EncodeStr (bytes : List Nat) : String := ⟨base64Encode bytes⟩

/-- String-level wrapper of `base64Decode` (`Buffer.from(s, 'base64')`). -/
def base64DecodeStr (s : String) : List Nat := base64Decode s.data

theorem b64dec_b64enc : ∀ n : Nat, n < 64 → b64dec (b64enc n) = n := by decide

theorem b64enc_ne_pad : ∀ n : Nat, n < 64 → b64enc n ≠ '=' := by decide

/-- Decoding after encoding returns the original byte list. -/
theorem base64_decode_encode :
    ∀ l : List Nat, (∀ x ∈ l, x < 256) → base64Decode (base64Encode l) = l
  | [], _ => rfl
  | [a], h => by
      have ha : a < 256 := h a (by simp)
      have e1 := b64dec_b64enc (a / 4) (by omega)
      have e2 := b64dec_b64enc (a % 4 * 16) (by omega)
      simp only [base64Encode, base64Decode, decodeB64Group, if_pos rfl, e1, e2,
        List.append_nil]
      have hx : a / 4 * 4 + a % 4 * 16 / 16 = a := by omega
      rw [hx]
      simp
  | [a, b], h => by
      have ha : a < 256 := h a (by simp)
      have hb : b < 256 := h b (by simp)
      have e1 := b64dec_b64enc (a / 4) (by omega)
      have e2 := b64dec_b64enc (a % 4 * 16 + b / 16) (by omega)
      have e3 := b64dec_b64enc (b % 16 * 4) (by omega)
      have n3 := b64enc_ne_pad (b % 16 * 4) (by omega)
      simp only [base64Encode, base64Decode, decodeB64Group, if_neg n3, if_pos rfl,
        e1, e2, e3, List.append_nil]
      have hx : a / 4 * 4 + (a % 4 * 16 + b / 16) / 16 = a := by omega
      have hy : (a % 4 * 16 + b / 16) % 16 * 16 + b % 16 * 4 / 4 = b := by omega
      rw [hx, hy]
      simp
  | a :: b :: c :: rest, h => by
      have ha : a < 256 := h a (by simp)
      have hb : b < 256 := h b (by simp)
      have hc : c < 256 := h c (by simp)
      have ih := base64_decode_encode rest (fun x hx => h x (by simp at hx ⊢; tauto))
      have e1 := b64dec_b64enc (a / 4) (by omega)
      have e2 := b64dec_b64enc (a % 4 * 16 + b / 16) (by omega)
      have e3 := b64dec_b64enc (b % 16 * 4 + c / 64) (by omega)
      have e4 := b64dec_b64enc (c % 64) (by omega)
      have n3 := b64enc_ne_pad (b % 16 * 4 + c / 64) (by omega)
      have n4 := b64enc_ne_pad (c % 64) (by omega)
      simp only [base64Encode, base64Decode, decodeB64Group, if_neg n3, if_neg n4,
        e1, e2, e3, e4]
      have hx : a / 4 * 4 + (a % 4 * 16 + b / 16) / 16 = a := by omega
      have hy : (a % 4 * 16 + b / 16) % 16 * 16 + (b % 16 * 4 + c / 64) / 4 = b := by omega
      have hz : (b % 16 * 4 + c / 64) % 4 * 64 + c % 64 = c := by omega
      rw [hx, hy, hz, ih]
      simp

/-! ## Static configuration, from `src/config.ts` / `config.js`. -/

/-- `OPENAI_CONFIG.MODEL` in `config`. -/
def MODEL : String := "gpt-4o-mini-realtime-preview-2024-12-17"

/-- `OPENAI_CONFIG.BASE_URL` in `config`. -/
def BASE_URL : String := "wss://api.openai.com/v1/realtime"

/-- `WEBSOCKET_URL_WITH_MODEL` in `config`. -/
def WEBSOCKET_URL_WITH_MODEL : String := BASE_URL ++ "?model=" ++ MODEL

/-- The upstream request headers built in `handleNewClientConnection`
(`openaiHandler.ts` lines 116-119); `apiKey` is the configured
`OPENAI_API_KEY` environment value. -/
def openAIHeaders (apiKey : String) : List (String × String) :=
  [("Authorization", "Bearer " ++ apiKey), ("OpenAI-Beta", "realtime=v1")]

/-! ## Data model of the handler (`src/openaiHandler.ts`). -/

/-- `WebSocket.readyState` values of the `ws` library. -/
inductive ReadyState
  | CONNECTING
  | OPEN
  | CLOSING
  | CLOSED
deriving DecidableEq, Repr

/-- An entry of the module-level `conversationLog`; the flexible extra
properties are modelled as string key/value pairs. -/
structure LogEntry where
  timestamp : Nat
  type : String
  info : List (String × String)
deriving DecidableEq, Repr

/-- A content part of an OpenAI response output item (`ContentPart`). -/
structure ContentPart where
  type : String
  text : Option String
  transcript : Option String
deriving DecidableEq, Repr

/-- An OpenAI response output item (`OutputItem`). -/
structure OutputItem where
  type : String
  content : Option (List ContentPart)
deriving DecidableEq, Repr

/-- JavaScript truthiness of a `string | undefined` value:
present and non-empty. -/
def jsTruthy : Option String → Bool
  | some v => v != ""
  | none => false

/-- JavaScript `x || d` for `x : string | null | undefined`:
the default is taken when `x` is absent or the empty string. -/
def jsOrElse (x : Option String) (d : String) : String :=
  match x with
  | some v => if v = "" then d else v
  | none => d

/-- JSON payloads the handler sends to the browser client. -/
inductive ClientPayload
  | binary (bytes : List Nat)
  | aiConnected (sessionId : Option String)
  | aiResponseStart
  | textDelta (text : String)
  | aiResponseEnd (finalText : String)
  | aiSpeechDetected
  | aiSpeechEnded
deriving DecidableEq, Repr

/-- JSON payloads the handler sends to the upstream OpenAI socket. -/
inductive UpstreamPayload
  | sessionUpdate (eventId : String)
  | inputAudioBufferAppend (audio : String)
deriving DecidableEq, Repr

/-- Observable actions of the handler.  `connectUpstream` is the
`new WebSocket(url, { headers })` constructor call; `writeAudioFile`
abstracts `fs.writeFile` into the audio output directory
(file `{respId}_backend.raw` in `openai_audio_output`); `writeTranscriptFile`
abstracts `fs.writeFile` into the text output directory
(file `{timestamp}_{respId}_transcript.txt` in `openai_text_output`).
Console logging is not modelled as an action. -/
inductive RelayAction
  | connectUpstream (url : String) (headers : List (String × String))
  | sendClient (payload : ClientPayload)
  | sendUpstream (payload : UpstreamPayload)
  | closeClient (code : Nat) (reason : String)
  | closeUpstream (code : Nat) (reason : String)
  | writeAudioFile (respId : String) (bytes : List Nat)
  | writeTranscriptFile (respId : String) (text : String)
deriving DecidableEq, Repr

/-- A parsed message from the upstream OpenAI socket, mirroring the
`switch (data.type)` of `wsOpenAI.on('message')`.  `errorMsg` carries the
error code and message already extracted from the raw JSON fields (the
string munging of lines 356-366 happens before this event); `nonJson` is
the `catch` branch that treats an unparsable buffer as an audio chunk;
`handledNoop` stands for the explicitly-ignored lifecycle types
(`input_audio_buffer.committed`, `conversation.item.created`, ...). -/
inductive UpstreamMsg
  | sessionCreated (sessionId : Option String)
  | sessionUpdated
  | sessionClosed
  | responseCreated (respId : Option String)
  | audioDelta (delta : Option String)
  | textDelta (delta : Option String)
  | audioTranscriptDelta
  | responseDone (status : Option String) (output : Option (List OutputItem))
  | speechStarted
  | speechStopped
  | handledNoop
  | errorMsg (errCode : String) (errMsg : String)
  | unknown (ty : String)
  | nonJson (bytes : List Nat)
deriving DecidableEq, Repr

/-- A raw message from the browser client (`isBinary` distinguishes the
two shapes). -/
inductive ClientMsg
  | binary (bytes : List Nat)
  | text (s : String)
deriving DecidableEq, Repr

/-- Which fire-and-forget `fs.writeFile` a completion callback belongs to. -/
inductive WriteKind
  | audio
  | transcript
deriving DecidableEq, Repr

/-- The events delivered to the handler's callbacks.  `writeResult` is the
`fs.writeFile` completion callback (`err = some msg` on failure). -/
inductive HEvent
  | upstreamOpen
  | upstreamMsg (m : UpstreamMsg)
  | upstreamError (message : String)
  | upstreamClose (code : Nat) (reason : String)
  | clientMsg (m : ClientMsg)
  | clientClose (code : Nat) (reason : String)
  | clientError (message : String)
  | writeResult (kind : WriteKind) (err : Option String)
deriving DecidableEq, Repr

/-- The state visible to one invocation of `handleNewClientConnection`.
`conversationLog`, `currentResponseAudioChunks` and `currentResponseId`
are the MODULE-LEVEL variables of `openaiHandler.ts` (lines 93-95); the
rest are the closure locals of the invocation (lines 106-110), plus the
`readyState` of the two sockets (`wsOpenAI = none` models the variable
being `null`). -/
structure HState where
  conversationLog : List LogEntry
  currentResponseAudioChunks : List (List Nat)
  currentResponseId : Option String
  wsOpenAI : Option ReadyState
  clientState : ReadyState
  clientClosed : Bool
  openAIConnected : Bool
  openAISessionId : Option String
  turnInProgress : Bool
deriving DecidableEq, Repr

/-! ## The handler, embedded from `handleNewClientConnection`
(`src/openaiHandler.ts` lines 102-467). -/

/-- `conversationLog.push(entry)`. -/
def pushLog (s : HState) (e : LogEntry) : HState :=
  { s with conversationLog := s.conversationLog ++ [e] }

/-- The recurring `if (wsClient.readyState === WebSocket.OPEN) wsClient.send(p)`. -/
def clientSend (s : HState) (p : ClientPayload) : List RelayAction :=
  if s.clientState = ReadyState.OPEN then [RelayAction.sendClient p] else []

/-- `safeCloseClient` (lines 129-139): close the client socket when it is
`OPEN`, and always set the `clientClosed` flag. -/
def safeCloseClient (s : HState) (code : Nat) (reason : String) :
    HState × List RelayAction :=
  if s.clientState = ReadyState.OPEN then
    ({ s with clientClosed := true, clientState := ReadyState.CLOSING },
     [RelayAction.closeClient code reason])
  else ({ s with clientClosed := true }, [])

/-- `safeCloseOpenAI` (lines 141-152): close the upstream socket when it is
`OPEN` or `CONNECTING`, and always clear `openAIConnected` and null out
`wsOpenAI`. -/
def safeCloseOpenAI (s : HState) (code : Nat) (reason : String) :
    HState × List RelayAction :=
  if s.wsOpenAI = some ReadyState.OPEN ∨ s.wsOpenAI = some ReadyState.CONNECTING then
    ({ s with openAIConnected := false, wsOpenAI := none },
     [RelayAction.closeUpstream code reason])
  else ({ s with openAIConnected := false, wsOpenAI := none }, [])

/-- The audio-transcript fallback of the `response.done` text extraction
(lines 293-297): the first `audio` content part with a truthy transcript. -/
def audioFallback (parts : List ContentPart) : String :=
  match parts.find? (fun p => p.type == "audio" && jsTruthy p.transcript) with
  | some ap => if jsTruthy ap.transcript then ap.transcript.getD "" else ""
  | none => ""

/-- The `finalAssistantText` extraction of the `response.done` case
(lines 285-298): the first `output_text` part of the first `message`
output item, else the audio-transcript fallback, else the empty string. -/
def extractFinalText (output : Option (List OutputItem)) : String :=
  match (output.getD []).find? (fun o => o.type == "message") with
  | some om =>
      match om.content with
      | some parts =>
          let textOpt := (parts.find? (fun p => p.type == "output_text")).bind
            (fun p => p.text)
          if jsTruthy textOpt then textOpt.getD "" else audioFallback parts
      | none => ""
  | none => ""

/-- The body of the `switch (data.type)` in `wsOpenAI.on('message')`
(lines 197-391), reached after the guard
`if (clientClosed || !openAIConnected || !wsOpenAI) return`. -/
def handleUpstreamMsg (s : HState) (now : Nat) (m : UpstreamMsg) :
    HState × List RelayAction :=
  match m with
  | UpstreamMsg.sessionCreated sid =>
      let s1 := pushLog { s with openAISessionId := sid }
        { timestamp := now, type := "session_created",
          info := [("sessionId", sid.getD "null")] }
      (s1, clientSend s1 (ClientPayload.aiConnected sid))
  | UpstreamMsg.sessionUpdated => (s, [])
  | UpstreamMsg.sessionClosed =>
      let s1 := pushLog s { timestamp := now, type := "openai_closed_by_server", info := [] }
      let r1 := safeCloseClient s1 1000 "OpenAI session closed"
      let r2 := safeCloseOpenAI r1.1 1000 "Session closed by server"
      (r2.1, r1.2 ++ r2.2)
  | UpstreamMsg.responseCreated rid =>
      let s1 := { s with turnInProgress := true,
                         currentResponseId := some (jsOrElse rid ("resp_" ++ toString now)),
                         currentResponseAudioChunks := [] }
      (s1, clientSend s1 ClientPayload.aiResponseStart)
  | UpstreamMsg.audioDelta d =>
      if jsTruthy d then
        let bytes := base64DecodeStr (d.getD "")
        let s1 := if s.currentResponseId.isSome then
            { s with currentResponseAudioChunks := s.currentResponseAudioChunks ++ [bytes] }
          else s
        (s1, clientSend s1 (ClientPayload.binary bytes))
      else (s, [])
  | UpstreamMsg.textDelta d =>
      if jsTruthy d then (s, clientSend s (ClientPayload.textDelta (d.getD "")))
      else (s, [])
  | UpstreamMsg.audioTranscriptDelta => (s, [])
  | UpstreamMsg.responseDone _status output =>
      let s1 := { s with turnInProgress := false }
      let respIdToSave := jsOrElse s1.currentResponseId ("resp_done_" ++ toString now)
      let audioActs := if s1.currentResponseAudioChunks.length > 0 then
          [RelayAction.writeAudioFile respIdToSave s1.currentResponseAudioChunks.flatten]
        else []
      let s2 := { s1 with currentResponseAudioChunks := [], currentResponseId := none }
      let finalText := extractFinalText output
      let s3 := if finalText ≠ "" then
          pushLog s2 { timestamp := now, type := "assistant_text", info := [("text", finalText)] }
        else
          pushLog s2
            { timestamp := now, type := "assistant_text",
              info := [("text", "[No text extracted]")] }
      let txtActs := if finalText ≠ "" then
          [RelayAction.writeTranscriptFile respIdToSave finalText]
        else []
      (s3, audioActs ++ txtActs ++ clientSend s3 (ClientPayload.aiResponseEnd finalText))
  | UpstreamMsg.speechStarted => (s, clientSend s ClientPayload.aiSpeechDetected)
  | UpstreamMsg.speechStopped => (s, clientSend s ClientPayload.aiSpeechEnded)
  | UpstreamMsg.handledNoop => (s, [])
  | UpstreamMsg.errorMsg errCode errMsg =>
      let s1 := pushLog s
        { timestamp := now, type := "openai_error",
          info := [("code", errCode), ("message", errMsg)] }
      let r1 := safeCloseClient s1 1011 ("OpenAI Error: " ++ errMsg.take 100)
      let r2 := safeCloseOpenAI r1.1 1011 ("Reported error: " ++ errMsg.take 100)
      (r2.1, r1.2 ++ r2.2)
  | UpstreamMsg.unknown _ => (s, [])
  | UpstreamMsg.nonJson bytes =>
      if bytes ≠ [] then
        let s1 := if s.currentResponseId.isSome then
            { s with currentResponseAudioChunks := s.currentResponseAudioChunks ++ [bytes] }
          else s
        (s1, clientSend s1 (ClientPayload.binary bytes))
      else (s, [])

/-- One event-callback step of the handler.  `now` is `Date.now()` at the
moment the callback runs.  The `ws` library's own `readyState` update is
applied before the callback body where the library performs one (socket
becomes `OPEN` on 'open', `CLOSED` on 'close'). -/
def handleEvent (s : HState) (now : Nat) (ev : HEvent) : HState × List RelayAction :=
  match ev with
  | HEvent.upstreamOpen =>
      let s1 := { s with wsOpenAI := s.wsOpenAI.map (fun _ => ReadyState.OPEN) }
      if s1.clientClosed then
        safeCloseOpenAI s1 1000 "Client disconnected during OpenAI connect"
      else
        let s2 := { s1 with openAIConnected := true }
        if s2.wsOpenAI = some ReadyState.OPEN then
          (s2, [RelayAction.sendUpstream
            (UpstreamPayload.sessionUpdate ("session_config_" ++ toString now))])
        else (s2, [])
  | HEvent.upstreamMsg m =>
      if s.clientClosed ∨ s.openAIConnected = false ∨ s.wsOpenAI = none then (s, [])
      else handleUpstreamMsg s now m
  | HEvent.upstreamError msg =>
      if s.clientClosed ∨ s.wsOpenAI = none then (s, [])
      else
        let s1 := pushLog s
          { timestamp := now, type := "openai_ws_error", info := [("message", msg)] }
        let r1 := safeCloseClient s1 1011 "OpenAI connection error"
        let r2 := safeCloseOpenAI r1.1 1011 "WebSocket error"
        (r2.1, r1.2 ++ r2.2)
  | HEvent.upstreamClose code reason =>
      let s1 := { s with wsOpenAI := s.wsOpenAI.map (fun _ => ReadyState.CLOSED) }
      if s1.openAIConnected = false ∧ s1.wsOpenAI = none then (s1, [])
      else
        let s2 := pushLog s1
          { timestamp := now, type := "openai_closed",
            info := [("code", toString code), ("reason", reason)] }
        let r1 := safeCloseClient s2 1000 ("OpenAI session ended (" ++ toString code ++ ")")
        ({ r1.1 with openAIConnected := false, wsOpenAI := none }, r1.2)
  | HEvent.clientMsg m =>
      if s.clientClosed ∨ s.wsOpenAI ≠ some ReadyState.OPEN then (s, [])
      else
        match m with
        | ClientMsg.binary bytes =>
            let s1 := pushLog s
              { timestamp := now, type := "user_audio_chunk_sent",
                info := [("size", toString bytes.length)] }
            (s1, [RelayAction.sendUpstream
              (UpstreamPayload.inputAudioBufferAppend (base64EncodeStr bytes))])
        | ClientMsg.text _ => (s, [])
  | HEvent.clientClose code reason =>
      let s1 := { s with clientState := ReadyState.CLOSED }
      if s1.clientClosed then (s1, [])
      else
        let s2 := pushLog s1
          { timestamp := now, type := "client_disconnected",
            info := [("code", toString code), ("reason", reason)] }
        safeCloseOpenAI { s2 with clientClosed := true } 1000 "Client disconnected"
  | HEvent.clientError msg =>
      if s.clientClosed then (s, [])
      else
        let s1 := pushLog s
          { timestamp := now, type := "client_ws_error", info := [("message", msg)] }
        safeCloseOpenAI { s1 with clientClosed := true } 1011 "Client connection error"
  | HEvent.writeResult _ _ => (s, [])

/-- The body of `handleNewClientConnection` up to the event-listener
registrations (lines 102-126): push the `connect` log entry, then open the
single upstream socket with the static headers.  The module-level variables
hold their values from before the call (`prevLog`, `prevChunks`,
`prevRespId`); the browser socket just accepted is `OPEN`. -/
def initHandler (prevLog : List LogEntry) (prevChunks : List (List Nat))
    (prevRespId : Option String) (apiKey : String) (clientIp : Option String)
    (now : Nat) : HState × List RelayAction :=
  ({ conversationLog := prevLog ++
       [{ timestamp := now, type := "connect", info := [("ip", clientIp.getD "UnknownIP")] }],
     currentResponseAudioChunks := prevChunks,
     currentResponseId := prevRespId,
     wsOpenAI := some ReadyState.CONNECTING,
     clientState := ReadyState.OPEN,
     clientClosed := false,
     openAIConnected := false,
     openAISessionId := none,
     turnInProgress := false },
   [RelayAction.connectUpstream WEBSOCKET_URL_WITH_MODEL (openAIHeaders apiKey)])

/-- Fold of `handleEvent` over a timestamped event sequence. -/
def processEvents (s : HState) (evs : List (Nat × HEvent)) : HState :=
  evs.foldl (fun acc p => (handleEvent acc p.1 p.2).1) s

/-! ## Two concurrently handled connections.

`conversationLog`, `currentResponseAudioChunks` and `currentResponseId`
are declared at module level in `openaiHandler.ts` (lines 93-95), so two
invocations of `handleNewClientConnection` share them, while each
invocation has its own closure locals (lines 106-110).  `stepServer`
delivers one event to one of two connections accordingly. -/

/-- The module-level mutable variables of `openaiHandler.ts`. -/
structure SharedState where
  conversationLog : List LogEntry
  currentResponseAudioChunks : List (List Nat)
  currentResponseId : Option String
deriving DecidableEq, Repr

/-- The closure locals of one `handleNewClientConnection` invocation,
plus the `readyState` of its two sockets. -/
structure ConnLocal where
  wsOpenAI : Option ReadyState
  clientState : ReadyState
  clientClosed : Bool
  openAIConnected : Bool
  openAISessionId : Option String
  turnInProgress : Bool
deriving DecidableEq, Repr

/-- Combined state of two concurrently handled connections. -/
structure ServerState where
  shared : SharedState
  connA : ConnLocal
  connB : ConnLocal
deriving DecidableEq, Repr

/-- Assemble the view one invocation has of the state. -/
def mkHState (g : SharedState) (c : ConnLocal) : HState :=
  { conversationLog := g.conversationLog,
    currentResponseAudioChunks := g.currentResponseAudioChunks,
    currentResponseId := g.currentResponseId,
    wsOpenAI := c.wsOpenAI,
    clientState := c.clientState,
    clientClosed := c.clientClosed,
    openAIConnected := c.openAIConnected,
    openAISessionId := c.openAISessionId,
    turnInProgress := c.turnInProgress }

/-- Project the module-level part back out of a handler state. -/
def sharedOf (h : HState) : SharedState :=
  { conversationLog := h.conversationLog,
    currentResponseAudioChunks := h.currentResponseAudioChunks,
    currentResponseId := h.currentResponseId }

/-- Project the per-invocation part back out of a handler state. -/
def localOf (h : HState) : ConnLocal :=
  { wsOpenAI := h.wsOpenAI,
    clientState := h.clientState,
    clientClosed := h.clientClosed,
    openAIConnected := h.openAIConnected,
    openAISessionId := h.openAISessionId,
    turnInProgress := h.turnInProgress }

/-- Which of the two connections an event is delivered to. -/
inductive ConnId
  | A
  | B
deriving DecidableEq, Repr

/-- Deliver one event to one connection: its invocation of the handler
runs on the shared module variables together with its own locals; the
other invocation's locals are untouched JavaScript closure state. -/
def stepServer (cid : ConnId) (now : Nat) (ev : HEvent) (s : ServerState) :
    ServerState × List RelayAction :=
  match cid with
  | ConnId.A =>
      let r := handleEvent (mkHState s.shared s.connA) now ev
      ({ shared := sharedOf r.1, connA := localOf r.1, connB := s.connB }, r.2)
  | ConnId.B =>
      let r := handleEvent (mkHState s.shared s.connB) now ev
      ({ shared := sharedOf r.1, connA := s.connA, connB := localOf r.1 }, r.2)

/-! ## The connection gate, from `server.js` lines 34-47
(equivalently `src/server.ts` lines 34-76). -/

/-- The allowed-origins list of `server.js`. -/
def allowedOrigins : List String := ["http://localhost:5173"]

/-- What `wss.on('connection')` does with an accepted socket. -/
inductive ConnDecision
  | bridged
  | rejected (code : Nat) (reason : String)
deriving DecidableEq, Repr

/-- The `wss.on('connection')` origin check
(`if (allowedOrigins.includes(origin) || !origin)`): a request whose
`Origin` value is JavaScript-falsy (header absent, or present but the
empty string) or in the allowed list is passed to
`handleNewClientConnection` (`bridged`); otherwise the socket is closed
with code 1008.  `!origin` is falsiness of a `string | undefined`,
i.e. `!jsTruthy origin`. -/
def wssOnConnection (origin : Option String) : ConnDecision :=
  if (origin.map (fun o => allowedOrigins.contains o)).getD false || !jsTruthy origin then
    ConnDecision.bridged
  else ConnDecision.rejected 1008 "Origin not allowed"

/-! ## Helper lemmas. -/

@[simp] theorem safeCloseClient_fst_conversationLog (s : HState) (c : Nat) (r : String) :
    (safeCloseClient s c r).1.conversationLog = s.conversationLog := by
  unfold safeCloseClient; split <;> rfl

@[simp] theorem safeCloseOpenAI_fst_conversationLog (s : HState) (c : Nat) (r : String) :
    (safeCloseOpenAI s c r).1.conversationLog = s.conversationLog := by
  unfold safeCloseOpenAI; split <;> rfl

@[simp] theorem safeCloseClient_fst_wsOpenAI (s : HState) (c : Nat) (r : String) :
    (safeCloseClient s c r).1.wsOpenAI = s.wsOpenAI := by
  unfold safeCloseClient; split <;> rfl

@[simp] theorem safeCloseClient_snd (s : HState) (c : Nat) (r : String) :
    (safeCloseClient s c r).2 =
      if s.clientState = ReadyState.OPEN then [RelayAction.closeClient c r] else [] := by
  unfold safeCloseClient; split <;> simp_all

@[simp] theorem safeCloseOpenAI_snd (s : HState) (c : Nat) (r : String) :
    (safeCloseOpenAI s c r).2 =
      if s.wsOpenAI = some ReadyState.OPEN ∨ s.wsOpenAI = some ReadyState.CONNECTING then
        [RelayAction.closeUpstream c r]
      else [] := by
  unfold safeCloseOpenAI; split <;> simp_all

/-- Concrete mid-session state: both sockets open, bridging active,
a response in flight with id `r1`. -/
def activeState : HState :=
  { conversationLog := [], currentResponseAudioChunks := [], currentResponseId := some "r1",
    wsOpenAI := some ReadyState.OPEN, clientState := ReadyState.OPEN, clientClosed := false,
    openAIConnected := true, openAISessionId := some "sess", turnInProgress := true }

/-! ## C7 / C8 / C9: frame of write callbacks, static headers, dropped
client messages. -/

/-- C7: file writes are fire-and-forget: the `fs.writeFile` completion
callback (success or failure) leaves the whole handler state unchanged —
sockets, flags, buffers and log exactly as before — and performs no
action at all (in particular no retry and no socket close); the source
callbacks only emit console messages, which are not modelled as actions. -/
theorem c7_write_callback_frame :
    ∀ (s : HState) (now : Nat) (kind : WriteKind) (err : Option String),
      handleEvent s now (HEvent.writeResult kind err) = (s, []) := by
  intro s now kind err
  rfl

/-- C8: every upstream connection is opened with exactly the static
headers `Authorization: Bearer <OPENAI_API_KEY>` and
`OpenAI-Beta: realtime=v1`, at the fixed configured URL, independently of
the client connection (`clientIp`), the time, and the prior module state. -/
theorem c8_static_upstream_headers :
    ∀ (prevLog : List LogEntry) (prevChunks : List (List Nat)) (prevRespId : Option String)
      (apiKey : String) (clientIp : Option String) (now : Nat),
      (initHandler prevLog prevChunks prevRespId apiKey clientIp now).2 =
        [RelayAction.connectUpstream WEBSOCKET_URL_WITH_MODEL
          [("Authorization", "Bearer " ++ apiKey), ("OpenAI-Beta", "realtime=v1")]] := by
  intro _ _ _ _ _ _
  rfl

/-- C9: a client message arriving while the upstream socket is absent
(`null`) or not `OPEN` is silently dropped: nothing is forwarded or
buffered and the whole session state is unchanged (the source only emits
a console warning). -/
theorem c9_client_msg_dropped_when_upstream_not_open :
    ∀ (s : HState) (now : Nat) (m : ClientMsg), s.wsOpenAI ≠ some ReadyState.OPEN →
      handleEvent s now (HEvent.clientMsg m) = (s, []) := by
  intro s now m h
  simp only [handleEvent]
  rw [if_pos (Or.inr h)]

/-- Witness for C9 at a concrete state with no upstream socket. -/
theorem c9_witness :
    ({ activeState with wsOpenAI := none } : HState).wsOpenAI ≠ some ReadyState.OPEN
    ∧ handleEvent { activeState with wsOpenAI := none } 2
        (HEvent.clientMsg (ClientMsg.binary [1, 2, 3])) =
      ({ activeState with wsOpenAI := none }, []) :=
  ⟨by decide,
   c9_client_msg_dropped_when_upstream_not_open { activeState with wsOpenAI := none } 2
     (ClientMsg.binary [1, 2, 3]) (by decide)⟩

/-! ## C10: the origin gate. -/

/-- C10 counterexample: a request carrying a present empty-string
`Origin` header is not in the allowed-origins list, yet the gate bridges
it instead of closing with 1008 — `!origin` in the source is true for the
empty string — refuting the claim that every present-but-disallowed
origin is rejected. -/
theorem c10_counterexample :
    "" ∉ allowedOrigins
    ∧ wssOnConnection (some "") = ConnDecision.bridged
    ∧ wssOnConnection (some "") ≠ ConnDecision.rejected 1008 "Origin not allowed" := by
  decide

/-- C10 (amended): an upgrade request whose `Origin` header is present,
non-empty and not in the allowed-origins list is closed with code 1008
and never bridged; a request with no `Origin` header, with a present
empty-string `Origin` header, or with an allowed origin is always passed
to `handleNewClientConnection`. -/
theorem c10_amended_origin_gate :
    ∀ origin : Option String,
      ((∃ o, origin = some o ∧ o ≠ "" ∧ o ∉ allowedOrigins) →
          wssOnConnection origin = ConnDecision.rejected 1008 "Origin not allowed")
      ∧ ((origin = none ∨ origin = some "" ∨ ∃ o, origin = some o ∧ o ∈ allowedOrigins) →
          wssOnConnection origin = ConnDecision.bridged) := by
  intro origin
  constructor
  · rintro ⟨o, rfl, hne, ho⟩
    simp [wssOnConnection, jsTruthy, ho, hne]
  · rintro (rfl | rfl | ⟨o, rfl, ho⟩)
    · rfl
    · rfl
    · simp [wssOnConnection, ho]

/-- Witness for the amended C10 at four concrete origins. -/
theorem c10_amended_witness :
    wssOnConnection (some "http://evil.example") = ConnDecision.rejected 1008 "Origin not allowed"
    ∧ wssOnConnection none = ConnDecision.bridged
    ∧ wssOnConnection (some "") = ConnDecision.bridged
    ∧ wssOnConnection (some "http://localhost:5173") = ConnDecision.bridged :=
  ⟨(c10_amended_origin_gate (some "http://evil.example")).1 ⟨_, rfl, by decide, by decide⟩,
   (c10_amended_origin_gate none).2 (Or.inl rfl),
   (c10_amended_origin_gate (some "")).2 (Or.inr (Or.inl rfl)),
   (c10_amended_origin_gate (some "http://localhost:5173")).2
     (Or.inr (Or.inr ⟨_, rfl, by decide⟩))⟩

/-! ## C1: which session bookkeeping is per-connection. -/

/-- Per-connection locals in the state used for the C1 demonstrations:
both sockets open, bridging active. -/
def activeLocal : ConnLocal :=
  { wsOpenAI := some ReadyState.OPEN, clientState := ReadyState.OPEN, clientClosed := false,
    openAIConnected := true, openAISessionId := some "sess", turnInProgress := false }

/-- Two-connection state in which connection A's last `response.created`
set the shared `currentResponseId` to `resp_A` and one audio chunk has
accumulated. -/
def c1CexState : ServerState :=
  { shared := { conversationLog := [],
                currentResponseAudioChunks := [[9]],
                currentResponseId := some "resp_A" },
    connA := activeLocal, connB := activeLocal }

/-- C1 counterexample: handling a `response.created` message on
connection B overwrites the shared `currentResponseId` and clears the
shared accumulated audio buffer that connection A observes, refuting the
claimed two-run noninterference for those two fields. -/
theorem c1_counterexample :
    (stepServer ConnId.B 5 (HEvent.upstreamMsg (UpstreamMsg.responseCreated (some "resp_B")))
        c1CexState).1.shared.currentResponseId ≠ c1CexState.shared.currentResponseId
    ∧ (stepServer ConnId.B 5 (HEvent.upstreamMsg (UpstreamMsg.responseCreated (some "resp_B")))
        c1CexState).1.shared.currentResponseAudioChunks
      ≠ c1CexState.shared.currentResponseAudioChunks := by
  decide

/-- A second two-connection state, for the shared-state conjunct of the
amended C1. -/
def c1DemoState : ServerState :=
  { shared := { conversationLog := [], currentResponseAudioChunks := [],
                currentResponseId := some "resp_1" },
    connA := activeLocal, connB := activeLocal }

/-- C1 (amended): only the closure-local bookkeeping — the turn flag
together with `clientClosed`, `openAIConnected`, the session id and the
socket references — is per-connection: handling any event on one
connection never modifies the other connection's local state.  The
accumulated audio buffer, the current response id and the conversation
log are module-level variables shared by all connections, and handling a
message on one connection can modify the values the other observes
(second conjunct, at a concrete input on connection A). -/
theorem c1_amended_per_connection_locality :
    (∀ (now : Nat) (ev : HEvent) (s : ServerState),
        (stepServer ConnId.B now ev s).1.connA = s.connA
        ∧ (stepServer ConnId.A now ev s).1.connB = s.connB)
    ∧ (stepServer ConnId.A 7 (HEvent.upstreamMsg (UpstreamMsg.responseCreated (some "resp_2")))
        c1DemoState).1.shared.currentResponseId ≠ c1DemoState.shared.currentResponseId := by
  constructor
  · intro now ev s
    exact ⟨rfl, rfl⟩
  · decide

/-! ## C2: exactly one upstream connection per client connection. -/

/-- C2: `handleNewClientConnection` performs exactly one upstream
`new WebSocket(...)` call during setup, and no event handler ever opens
another upstream connection (in particular there is no reconnection
after the upstream socket closes). -/
theorem c2_one_upstream_connection :
    (∀ (prevLog : List LogEntry) (prevChunks : List (List Nat)) (prevRespId : Option String)
        (apiKey : String) (clientIp : Option String) (now : Nat),
        (initHandler prevLog prevChunks prevRespId apiKey clientIp now).2 =
          [RelayAction.connectUpstream WEBSOCKET_URL_WITH_MODEL (openAIHeaders apiKey)])
    ∧ (∀ (s : HState) (now : Nat) (ev : HEvent) (url : String)
        (hdrs : List (String × String)),
        RelayAction.connectUpstream url hdrs ∉ (handleEvent s now ev).2) := by
  refine ⟨fun _ _ _ _ _ _ => rfl, ?_⟩
  intro s now ev url hdrs h
  cases ev with
  | upstreamOpen =>
      simp only [handleEvent] at h
      split at h
      · simp only [safeCloseOpenAI_snd] at h
        split at h <;> simp_all
      · split at h <;> simp_all
  | upstreamMsg m =>
      simp only [handleEvent] at h
      split at h
      · simp at h
      · cases m <;>
          simp only [handleUpstreamMsg, clientSend, pushLog, safeCloseClient_snd,
            safeCloseOpenAI_snd, safeCloseClient_fst_wsOpenAI, List.mem_append] at h <;>
          first
          | (split_ifs at h <;> simp_all)
          | simp_all
  | upstreamError msg =>
      simp only [handleEvent] at h
      split at h
      · simp at h
      · simp only [pushLog, safeCloseClient_snd, safeCloseOpenAI_snd,
          safeCloseClient_fst_wsOpenAI, List.mem_append] at h
        split_ifs at h <;> simp_all
  | upstreamClose code reason =>
      simp only [handleEvent] at h
      split at h
      · simp at h
      · simp only [pushLog, safeCloseClient_snd, List.mem_append] at h
        split_ifs at h <;> simp_all
  | clientMsg m =>
      simp only [handleEvent] at h
      split at h
      · simp at h
      · cases m <;> simp_all
  | clientClose code reason =>
      simp only [handleEvent] at h
      split at h
      · simp at h
      · simp only [pushLog, safeCloseOpenAI_snd] at h
        split_ifs at h <;> simp_all
  | clientError msg =>
      simp only [handleEvent] at h
      split at h
      · simp at h
      · simp only [pushLog, safeCloseOpenAI_snd] at h
        split_ifs at h <;> simp_all
  | writeResult kind err =>
      simp [handleEvent] at h

/-! ## C3: audio translation is a base64 round-trip. -/

/-- C3: while the session is bridging (client not closed, upstream socket
`OPEN`): a binary frame from the client is forwarded upstream as exactly
one `input_audio_buffer.append` event whose `audio` field is the base64
encoding of the frame's bytes; an upstream `response.audio.delta` event
with a non-empty delta is forwarded to the (open) client as the binary
bytes obtained by base64-decoding the delta; and decoding after encoding
returns the original bytes. -/
theorem c3_audio_base64_round_trip :
    (∀ (s : HState) (now : Nat) (bytes : List Nat),
        s.clientClosed = false → s.wsOpenAI = some ReadyState.OPEN →
        (handleEvent s now (HEvent.clientMsg (ClientMsg.binary bytes))).2 =
          [RelayAction.sendUpstream
            (UpstreamPayload.inputAudioBufferAppend (base64EncodeStr bytes))])
    ∧ (∀ (s : HState) (now : Nat) (d : String),
        s.clientClosed = false → s.openAIConnected = true → s.wsOpenAI ≠ none →
        s.clientState = ReadyState.OPEN → d ≠ "" →
        RelayAction.sendClient (ClientPayload.binary (base64DecodeStr d)) ∈
          (handleEvent s now (HEvent.upstreamMsg (UpstreamMsg.audioDelta (some d)))).2)
    ∧ (∀ bytes : List Nat, (∀ x ∈ bytes, x < 256) →
        base64DecodeStr (base64EncodeStr bytes) = bytes) := by
  refine ⟨?_, ?_, ?_⟩
  · intro s now bytes h1 h2
    simp only [handleEvent]
    rw [if_neg (by simp [h1, h2])]
  · intro s now d h1 h2 h3 h4 h5
    simp only [handleEvent]
    rw [if_neg (by simp [h1, h2, h3])]
    simp only [handleUpstreamMsg]
    rw [if_pos (by simp [jsTruthy, h5])]
    simp only [Option.getD_some, clientSend]
    split <;> simp [h4]
  · intro bytes h
    exact base64_decode_encode bytes h

/-- Witness for C3 at the concrete active state, frame `[104, 105]`
(whose base64 encoding is `aGk=`). -/
theorem c3_witness :
    (handleEvent activeState 0 (HEvent.clientMsg (ClientMsg.binary [104, 105]))).2 =
      [RelayAction.sendUpstream
        (UpstreamPayload.inputAudioBufferAppend (base64EncodeStr [104, 105]))]
    ∧ RelayAction.sendClient (ClientPayload.binary (base64DecodeStr "aGk=")) ∈
      (handleEvent activeState 0 (HEvent.upstreamMsg (UpstreamMsg.audioDelta (some "aGk=")))).2
    ∧ base64DecodeStr (base64EncodeStr [104, 105]) = [104, 105] :=
  ⟨c3_audio_base64_round_trip.1 activeState 0 [104, 105] rfl rfl,
   c3_audio_base64_round_trip.2.1 activeState 0 "aGk=" rfl rfl (by decide) rfl (by decide),
   c3_audio_base64_round_trip.2.2 [104, 105] (by decide)⟩

/-! ## C4: persistence of session artifacts on `response.done`. -/

/-- C4: on a handled `response.done`, if at least one audio delta has
accumulated, a write of the concatenation of the accumulated chunks into
the audio output directory is issued (under the current response id, with
the `resp_done_` fallback), and if a final assistant text is extracted
from the response output, a write of that text into the transcript output
directory is issued. -/
theorem c4_response_done_persists :
    ∀ (s : HState) (now : Nat) (status : Option String) (output : Option (List OutputItem)),
      s.clientClosed = false → s.openAIConnected = true → s.wsOpenAI ≠ none →
      (s.currentResponseAudioChunks.length > 0 →
        RelayAction.writeAudioFile (jsOrElse s.currentResponseId ("resp_done_" ++ toString now))
            s.currentResponseAudioChunks.flatten ∈
          (handleEvent s now (HEvent.upstreamMsg (UpstreamMsg.responseDone status output))).2)
      ∧ (extractFinalText output ≠ "" →
        RelayAction.writeTranscriptFile
            (jsOrElse s.currentResponseId ("resp_done_" ++ toString now))
            (extractFinalText output) ∈
          (handleEvent s now (HEvent.upstreamMsg (UpstreamMsg.responseDone status output))).2) := by
  intro s now status output h1 h2 h3
  constructor
  · intro hc
    simp only [handleEvent]
    rw [if_neg (by simp [h1, h2, h3])]
    simp only [handleUpstreamMsg, List.mem_append]
    rw [if_pos hc]
    simp
  · intro ht
    simp only [handleEvent]
    rw [if_neg (by simp [h1, h2, h3])]
    simp only [handleUpstreamMsg, List.mem_append]
    simp [ht]

/-- Concrete state with one accumulated audio chunk, and a concrete
`response.done` output carrying an `output_text` part. -/
def doneOutput : List OutputItem :=
  [{ type := "message",
     content := some [{ type := "output_text", text := some "hello", transcript := none }] }]

/-- Witness for C4 at a concrete state and output. -/
theorem c4_witness :
    RelayAction.writeAudioFile
        (jsOrElse ({ activeState with currentResponseAudioChunks := [[1, 2]] } :
          HState).currentResponseId ("resp_done_" ++ toString 0))
        ({ activeState with currentResponseAudioChunks := [[1, 2]] } :
          HState).currentResponseAudioChunks.flatten ∈
      (handleEvent { activeState with currentResponseAudioChunks := [[1, 2]] } 0
        (HEvent.upstreamMsg (UpstreamMsg.responseDone none (some doneOutput)))).2
    ∧ RelayAction.writeTranscriptFile
        (jsOrElse ({ activeState with currentResponseAudioChunks := [[1, 2]] } :
          HState).currentResponseId ("resp_done_" ++ toString 0))
        (extractFinalText (some doneOutput)) ∈
      (handleEvent { activeState with currentResponseAudioChunks := [[1, 2]] } 0
        (HEvent.upstreamMsg (UpstreamMsg.responseDone none (some doneOutput)))).2 :=
  ⟨(c4_response_done_persists { activeState with currentResponseAudioChunks := [[1, 2]] } 0
      none (some doneOutput) rfl rfl (by decide)).1 (by decide),
   (c4_response_done_persists { activeState with currentResponseAudioChunks := [[1, 2]] } 0
      none (some doneOutput) rfl rfl (by decide)).2 (by decide)⟩

/-! ## C5: which error handlers close which sockets. -/

/-- C5 counterexample: at a concrete state in which the client socket is
`OPEN`, a client WebSocket `error` event produces only an upstream close —
the complete action list contains no close of the client socket, refuting
the claim that every defined error handler closes both sockets. -/
theorem c5_counterexample :
    activeState.clientState = ReadyState.OPEN
    ∧ activeState.clientClosed = false
    ∧ (handleEvent activeState 3 (HEvent.clientError "boom")).2 =
        [RelayAction.closeUpstream 1011 "Client connection error"] := by
  decide

/-- C5 (amended): an upstream `error`/`invalid_request_error` message and
an upstream WebSocket `error` event each close both sockets (the client
close emitted exactly when the client socket is `OPEN`, the upstream
close exactly when the upstream socket is `OPEN` or `CONNECTING`), and
the handler performs no action other than these closes; a client
WebSocket `error` event closes only the upstream socket, marking the
client closed without ever issuing a close on the client socket, again
with no other action. -/
theorem c5_amended_error_closes :
    (∀ (s : HState) (now : Nat) (errCode errMsg : String),
        s.clientClosed = false → s.openAIConnected = true → s.wsOpenAI ≠ none →
        (handleEvent s now (HEvent.upstreamMsg (UpstreamMsg.errorMsg errCode errMsg))).2 =
          (if s.clientState = ReadyState.OPEN then
            [RelayAction.closeClient 1011 ("OpenAI Error: " ++ errMsg.take 100)]
          else []) ++
          (if s.wsOpenAI = some ReadyState.OPEN ∨ s.wsOpenAI = some ReadyState.CONNECTING then
            [RelayAction.closeUpstream 1011 ("Reported error: " ++ errMsg.take 100)]
          else []))
    ∧ (∀ (s : HState) (now : Nat) (msg : String),
        s.clientClosed = false → s.wsOpenAI ≠ none →
        (handleEvent s now (HEvent.upstreamError msg)).2 =
          (if s.clientState = ReadyState.OPEN then
            [RelayAction.closeClient 1011 "OpenAI connection error"]
          else []) ++
          (if s.wsOpenAI = some ReadyState.OPEN ∨ s.wsOpenAI = some ReadyState.CONNECTING then
            [RelayAction.closeUpstream 1011 "WebSocket error"]
          else []))
    ∧ (∀ (s : HState) (now : Nat) (msg : String),
        s.clientClosed = false →
        (handleEvent s now (HEvent.clientError msg)).2 =
          (if s.wsOpenAI = some ReadyState.OPEN ∨ s.wsOpenAI = some ReadyState.CONNECTING then
            [RelayAction.closeUpstream 1011 "Client connection error"]
          else [])) := by
  refine ⟨?_, ?_, ?_⟩
  · intro s now errCode errMsg h1 h2 h3
    simp only [handleEvent]
    rw [if_neg (by simp [h1, h2, h3])]
    simp [handleUpstreamMsg, pushLog]
  · intro s now msg h1 h2
    simp only [handleEvent]
    rw [if_neg (by simp [h1, h2])]
    simp [pushLog]
  · intro s now msg h1
    simp only [handleEvent]
    rw [if_neg (by simp [h1])]
    simp [pushLog]

/-- Witness for C5 at the concrete active state (all three error kinds). -/
theorem c5_witness :
    (handleEvent activeState 1 (HEvent.upstreamMsg (UpstreamMsg.errorMsg "E" "boom"))).2 =
      [RelayAction.closeClient 1011 ("OpenAI Error: " ++ "boom".take 100),
       RelayAction.closeUpstream 1011 ("Reported error: " ++ "boom".take 100)]
    ∧ (handleEvent activeState 1 (HEvent.upstreamError "oops")).2 =
      [RelayAction.closeClient 1011 "OpenAI connection error",
       RelayAction.closeUpstream 1011 "WebSocket error"]
    ∧ (handleEvent activeState 1 (HEvent.clientError "bang")).2 =
      [RelayAction.closeUpstream 1011 "Client connection error"] := by
  refine ⟨?_, ?_, ?_⟩
  · have h := c5_amended_error_closes.1 activeState 1 "E" "boom" rfl rfl (by decide)
    simpa [activeState] using h
  · have h := c5_amended_error_closes.2.1 activeState 1 "oops" rfl (by decide)
    simpa [activeState] using h
  · have h := c5_amended_error_closes.2.2 activeState 1 "bang" rfl
    simpa [activeState] using h

/-! ## C6: the conversation log is append-only. -/

/-- Every single handler step either leaves the conversation log
unchanged or appends exactly one entry at its end. -/
theorem handleEvent_log_step :
    ∀ (s : HState) (now : Nat) (ev : HEvent),
      (handleEvent s now ev).1.conversationLog = s.conversationLog
      ∨ ∃ e, (handleEvent s now ev).1.conversationLog = s.conversationLog ++ [e] := by
  intro s now ev
  cases ev with
  | upstreamOpen =>
      simp only [handleEvent]
      split
      · exact Or.inl (by simp)
      · split
        · exact Or.inl rfl
        · exact Or.inl rfl
  | upstreamMsg m =>
      simp only [handleEvent]
      split
      · exact Or.inl rfl
      · cases m with
        | sessionCreated sid =>
            exact Or.inr ⟨LogEntry.mk now "session_created" [("sessionId", sid.getD "null")],
              by simp [handleUpstreamMsg, pushLog]⟩
        | sessionUpdated => exact Or.inl rfl
        | sessionClosed =>
            exact Or.inr ⟨LogEntry.mk now "openai_closed_by_server" [],
              by simp [handleUpstreamMsg, pushLog]⟩
        | responseCreated rid => exact Or.inl rfl
        | audioDelta d =>
            simp only [handleUpstreamMsg]
            split_ifs <;> exact Or.inl rfl
        | textDelta d =>
            simp only [handleUpstreamMsg]
            split_ifs <;> exact Or.inl rfl
        | audioTranscriptDelta => exact Or.inl rfl
        | responseDone status output =>
            simp only [handleUpstreamMsg]
            split_ifs with hft
            · exact Or.inr ⟨LogEntry.mk now "assistant_text" [("text", extractFinalText output)],
                by simp [pushLog]⟩
            · exact Or.inr ⟨LogEntry.mk now "assistant_text" [("text", "[No text extracted]")],
                by simp [pushLog]⟩
        | speechStarted => exact Or.inl rfl
        | speechStopped => exact Or.inl rfl
        | handledNoop => exact Or.inl rfl
        | errorMsg errCode errMsg =>
            exact Or.inr ⟨LogEntry.mk now "openai_error" [("code", errCode), ("message", errMsg)],
              by simp [handleUpstreamMsg, pushLog]⟩
        | unknown ty => exact Or.inl rfl
        | nonJson bytes =>
            simp only [handleUpstreamMsg]
            split_ifs <;> exact Or.inl rfl
  | upstreamError msg =>
      simp only [handleEvent]
      split
      · exact Or.inl rfl
      · exact Or.inr ⟨LogEntry.mk now "openai_ws_error" [("message", msg)],
          by simp [pushLog]⟩
  | upstreamClose code reason =>
      simp only [handleEvent]
      split
      · exact Or.inl rfl
      · exact Or.inr ⟨LogEntry.mk now "openai_closed" [("code", toString code), ("reason", reason)],
          by simp [pushLog]⟩
  | clientMsg m =>
      simp only [handleEvent]
      split
      · exact Or.inl rfl
      · cases m with
        | binary bytes =>
            exact Or.inr ⟨LogEntry.mk now "user_audio_chunk_sent" [("size", toString bytes.length)],
              by simp [pushLog]⟩
        | text t => exact Or.inl rfl
  | clientClose code reason =>
      simp only [handleEvent]
      split
      · exact Or.inl rfl
      · exact Or.inr ⟨LogEntry.mk now "client_disconnected" [("code", toString code), ("reason", reason)],
          by simp [pushLog]⟩
  | clientError msg =>
      simp only [handleEvent]
      split
      · exact Or.inl rfl
      · exact Or.inr ⟨LogEntry.mk now "client_ws_error" [("message", msg)],
          by simp [pushLog]⟩
  | writeResult kind err => exact Or.inl rfl

/-- C6: the process-lifetime log is append-only.  A single handled event
leaves the log unchanged or appends one entry at the end; consequently,
over any sequence of handled events, the old log remains a prefix of the
new one (no entry is removed or modified) and the log length is
monotonically non-decreasing.  `initHandler` likewise appends exactly one
`connect` entry to the log it inherits. -/
theorem c6_log_append_only :
    (∀ (s : HState) (now : Nat) (ev : HEvent),
        (handleEvent s now ev).1.conversationLog = s.conversationLog
        ∨ ∃ e, (handleEvent s now ev).1.conversationLog = s.conversationLog ++ [e])
    ∧ (∀ (s : HState) (evs : List (Nat × HEvent)),
        ∃ tail, (processEvents s evs).conversationLog = s.conversationLog ++ tail)
    ∧ (∀ (s : HState) (evs : List (Nat × HEvent)),
        s.conversationLog.length ≤ (processEvents s evs).conversationLog.length)
    ∧ (∀ (prevLog : List LogEntry) (prevChunks : List (List Nat)) (prevRespId : Option String)
        (apiKey : String) (clientIp : Option String) (now : Nat),
        (initHandler prevLog prevChunks prevRespId apiKey clientIp now).1.conversationLog =
          prevLog ++
            [{ timestamp := now, type := "connect",
               info := [("ip", clientIp.getD "UnknownIP")] }]) := by
  have chain : ∀ (s : HState) (evs : List (Nat × HEvent)),
      ∃ tail, (processEvents s evs).conversationLog = s.conversationLog ++ tail := by
    intro s evs
    induction evs generalizing s with
    | nil => exact ⟨[], (List.append_nil _).symm⟩
    | cons p rest ih =>
        obtain ⟨t2, h2⟩ := ih (handleEvent s p.1 p.2).1
        have hstep : processEvents s (p :: rest) =
            processEvents (handleEvent s p.1 p.2).1 rest := rfl
        rcases handleEvent_log_step s p.1 p.2 with h1 | ⟨e, h1⟩
        · exact ⟨t2, by rw [hstep, h2, h1]⟩
        · exact ⟨[e] ++ t2, by rw [hstep, h2, h1, List.append_assoc]⟩
  refine ⟨handleEvent_log_step, chain, ?_, fun _ _ _ _ _ _ => rfl⟩
  intro s evs
  obtain ⟨tail, h⟩ := chain s evs
  simp [h]
